import Mathlib

/-!
# Verification of the agricultural analysis dashboard's selection/aggregation core

Shallow embedding of `src/agricultural_analysis_app.py`.  Tabular rows are
lists of records; pandas numeric columns become `Option ℚ` (float `NaN`, the
missing-value sentinel produced by `pd.to_numeric(..., errors='coerce')`, is
`none`); chart figures become a declarative `ChartSpec` record.
-/

namespace AgriApp

/-- One observation row: an entity label (`State` or `Commodity` column),
an integer period (`Year` column) and a possibly-missing numeric value
(`Value` column after normalization). -/
structure Obs where
  entity : String
  period : ℤ
  value : Option ℚ
deriving DecidableEq

/-- One row of the index dataset (`Index Prices.csv`): no entity dimension. -/
structure IndexObs where
  period : ℤ
  value : Option ℚ
deriving DecidableEq

/-! ## Value normalization (lines 26–42)

`pd.to_numeric(df['Value'].astype(str).str.replace(',', ''), errors='coerce')`:
all commas are removed, then the text is parsed as a decimal number;
unparseable text becomes `NaN` (here `none`).  `parseDecimal` models
`pd.to_numeric`'s parsing of a plain decimal numeral (optional surrounding
whitespace, optional sign, integer and fractional digit runs). -/

/-- Numeric value of a run of decimal digit characters. -/
def digitsVal (cs : List Char) : ℕ :=
  cs.foldl (fun acc c => 10 * acc + (c.toNat - 48)) 0

/-- Every character of the run is a decimal digit. -/
def allDigits (cs : List Char) : Bool :=
  cs.all (fun c => c.isDigit)

/-- Parse an unsigned decimal numeral (`"123"`, `"123.45"`, `"123."`, `".45"`). -/
def parseUnsigned (cs : List Char) : Option ℚ :=
  let ip := cs.takeWhile (fun c => !(c == '.'))
  let rest := cs.dropWhile (fun c => !(c == '.'))
  match rest with
  | [] => if ip.isEmpty || !allDigits ip then none else some (digitsVal ip)
  | _ :: frac =>
    if frac.contains '.' then none
    else if !allDigits ip || !allDigits frac then none
    else if ip.isEmpty && frac.isEmpty then none
    else some ((digitsVal ip : ℚ) + (digitsVal frac : ℚ) / (10 ^ frac.length))

/-- Parse an optionally signed decimal numeral. -/
def parseSigned (cs : List Char) : Option ℚ :=
  match cs with
  | '-' :: rest => (parseUnsigned rest).map (fun q => -q)
  | '+' :: rest => parseUnsigned rest
  | _ => parseUnsigned cs

/-- ASCII whitespace, as stripped by the numeric parser. -/
def isSpaceChar (c : Char) : Bool :=
  c == ' ' || c == '\t' || c == '\n' || c == '\r'

/-- Strip leading and trailing whitespace from a character run. -/
def trimChars (cs : List Char) : List Char :=
  ((cs.dropWhile isSpaceChar).reverse.dropWhile isSpaceChar).reverse

/-- Model of `pd.to_numeric(s, errors='coerce')` on one field: strip
surrounding whitespace, parse as a decimal numeral, `none` on failure
(exponent forms, not present in these datasets, parse to `none`). -/
def parseDecimal (s : String) : Option ℚ :=
  parseSigned (trimChars s.data)

/-- `str.replace(',', '')` — every comma removed (line 29). -/
def stripCommas (s : String) : String :=
  ⟨s.data.filter (fun c => !(c == ','))⟩

/-- The value normalizer for the cropland dataset (line 29): strip
thousands separators, coerce to a number, `Missing` (`none`) on failure. -/
def normalize (raw : String) : Option ℚ :=
  parseDecimal (stripCommas raw)

/-- `load_cropland_data` (lines 27–30), after the CSV reader: every raw row
`(State, Year, raw Value text)` is kept, with its `Value` normalized. -/
def loadCroplandData (rows : List (String × ℤ × String)) : List Obs :=
  rows.map (fun r => ⟨r.1, r.2.1, normalize r.2.2⟩)

/-- A concrete raw cropland input: a comma-grouped numeral and the USDA
withheld-data marker `"(D)"`. -/
def rowsKYOH : List (String × ℤ × String) :=
  [("KENTUCKY", 2020, "1,234"), ("OHIO", 2021, "(D)")]

/-! ## Filter engine (lines 51–55) -/

/-- The row filter of `create_cropland_chart` (lines 51–55):
`State.isin(selected_states) & (Year >= year_range[0]) & (Year <= year_range[1])`. -/
def filterCropland (df : List Obs) (states : List String) (yr : ℤ × ℤ) : List Obs :=
  df.filter (fun r =>
    decide (r.entity ∈ states) && decide (yr.1 ≤ r.period) && decide (r.period ≤ yr.2))

/-- `create_crop_prices_chart`'s view (lines 84–85): rows whose `Commodity`
is in the hard-coded list; no year filtering, no parameters. -/
def createCropPricesView (df : List Obs) : List Obs :=
  df.filter (fun r => decide (r.entity ∈ (["WHEAT", "CORN", "SOYBEANS"] : List String)))

/-- `create_price_index_chart`'s view (line 102): `(Year >= 1990) & (Year <= 2025)`. -/
def createPriceIndexView (df : List IndexObs) : List IndexObs :=
  df.filter (fun r => decide (1990 ≤ r.period) && decide (r.period ≤ 2025))

/-! ## Chart spec builders (lines 50–121)

A plotly figure is embedded as a declarative record: its kind, title, axis
titles and horizontal reference marks (`add_hline` calls). -/

/-- The three chart kinds the dashboard can build. -/
inductive ChartKind where
  | Line
  | Area
  | Bar
deriving DecidableEq

/-- A horizontal reference mark (`fig.add_hline(y=..., annotation_text=...)`). -/
structure ChartMark where
  y : ℚ
  label : String
deriving DecidableEq

/-- Declarative description of a built figure. -/
structure ChartSpec where
  kind : ChartKind
  title : String
  xTitle : String
  yTitle : String
  refMarks : List ChartMark
deriving DecidableEq

/-- The branch on `chart_type` (lines 62–70): `'Line Chart'` and
`'Area Chart'` are matched exactly; the `else` arm (commented `# Bar Chart`)
catches every other string. -/
def chartKindOf (chartType : String) : ChartKind :=
  if chartType = "Line Chart" then ChartKind.Line
  else if chartType = "Area Chart" then ChartKind.Area
  else ChartKind.Bar

/-- Python `str.title()` on the character run: a cased character starting a
word (previous character not alphabetic) is uppercased, the rest lowercased. -/
def titleCaseChars : Bool → List Char → List Char
  | _, [] => []
  | prevAlpha, c :: cs =>
    (if c.isAlpha then (if prevAlpha then c.toLower else c.toUpper) else c) ::
      titleCaseChars c.isAlpha cs

/-- `str.title()` (line 60): `"KENTUCKY"` becomes `"Kentucky"`. -/
def titleCase (s : String) : String :=
  ⟨titleCaseChars false s.data⟩

/-- Line 60: `filtered_df['State_Display'] = filtered_df['State'].str.title()` —
the display view carries title-cased entity labels. -/
def viewDisplay (v : List Obs) : List Obs :=
  v.map (fun r => { r with entity := titleCase r.entity })

/-- `create_cropland_chart` (lines 50–80): filter, return `None` on an empty
result (the first-class "no data" answer), otherwise a chart of the
selected kind plus the filtered display view. -/
def createCroplandChart (df : List Obs) (states : List String) (yr : ℤ × ℤ)
    (chartType : String) : Option (ChartSpec × List Obs) :=
  let filtered := filterCropland df states yr
  if filtered.isEmpty then none
  else
    some ({ kind := chartKindOf chartType
            title := "Cropland Values per Acre (" ++ toString yr.1 ++ "-" ++ toString yr.2 ++ ")"
            xTitle := "Year"
            yTitle := "Price per Acre ($)"
            refMarks := [] }, viewDisplay filtered)

/-- `create_price_index_chart` (lines 101–121): a line chart over the
1990–2025 view with a single horizontal reference mark
`add_hline(y=100, annotation_text="2011 Base Year (100)")`. -/
def createPriceIndexChart (df : List IndexObs) : ChartSpec × List IndexObs :=
  ({ kind := ChartKind.Line
     title := "National Food Commodity Price Index (1990-2025)<br><sub>Base Year: 2011 = 100</sub>"
     xTitle := "Year"
     yTitle := "Price Index (2011 = 100)"
     refMarks := [⟨100, "2011 Base Year (100)"⟩] }, createPriceIndexView df)

/-! ## "Current index" extraction (line 205) -/

/-- Line 205: `current_index = index_data['Value'].iloc[0]` — the value of the
first row of the view, in dataset order (`none` when the view is empty, where
`iloc[0]` raises). -/
def currentIndex (view : List IndexObs) : Option (Option ℚ) :=
  view.head?.map (fun r => r.value)

/-- Follows the spec's words (Contract C): the value at the maximum period
present in the view; among rows sharing that maximum period, the first one
encountered in dataset order. -/
def latestSingleSpec (view : List IndexObs) : Option (Option ℚ) :=
  match (view.map (fun r => r.period)).max? with
  | none => none
  | some m => ((view.filter (fun r => decide (r.period = m))).head?).map (fun r => r.value)

/-- A year-ascending index dataset (both rows inside the 1990–2025 window). -/
def ixAsc : List IndexObs := [⟨1990, some 50⟩, ⟨2024, some 120⟩]

/-- A one-row cropland dataset used to exercise the chart builder. -/
def dfKY : List Obs := [⟨"KENTUCKY", 2000, some 100⟩]

/-- The chart the builder produces for `dfKY` under an unsupported kind. -/
def specPie : ChartSpec :=
  { kind := ChartKind.Bar
    title := "Cropland Values per Acre (1997-2025)"
    xTitle := "Year"
    yTitle := "Price per Acre ($)"
    refMarks := [] }

/-- The display view of `dfKY` (title-cased entity). -/
def viewKY : List Obs := [⟨"Kentucky", 2000, some 100⟩]

/-! ## Aggregator: summary statistics (line 167)

`filtered_df.groupby('State_Display')['Value'].agg(['mean','min','max','std']).round(0)`:
groups are formed on the key column (sorted ascending, pandas `sort=True`);
rows whose `Value` is `NaN` still belong to their group but are skipped by
every aggregate; `std` is the sample standard deviation (`ddof=1`), `NaN`
when a group has at most one non-missing value; `round(0)` is numpy
round-half-to-even. -/

/-- The sorted distinct group keys of a view (pandas `groupby` sorts keys). -/
def entitiesSorted (v : List Obs) : List String :=
  List.insertionSort (fun a b : String => a ≤ b) ((v.map (fun r => r.entity)).dedup)

/-- The non-missing values of one group, in view order (`NaN` skipped by the
aggregates). -/
def groupVals (v : List Obs) (e : String) : List ℚ :=
  v.filterMap (fun r => if r.entity = e then r.value else none)

/-- numpy round-half-to-even to an integer. -/
def roundHalfEven (q : ℚ) : ℤ :=
  let f := ⌊q⌋
  if q - f < 1 / 2 then f
  else if 1 / 2 < q - f then f + 1
  else if f % 2 = 0 then f else f + 1

/-- `round(0)` on a rational column entry. -/
def roundQ (q : ℚ) : ℚ :=
  (roundHalfEven q : ℚ)

open Classical in
/-- `round(0)` on a real column entry (the `std` column). -/
noncomputable def roundHalfEvenR (x : ℝ) : ℝ :=
  let f := ⌊x⌋
  if x - (f : ℝ) < 1 / 2 then (f : ℝ)
  else if 1 / 2 < x - (f : ℝ) then (f : ℝ) + 1
  else if f % 2 = 0 then (f : ℝ) else (f : ℝ) + 1

/-- Sample standard deviation (`ddof=1`), `NaN` (`none`) when the group has
at most one non-missing value — this is pandas' `std` on a group. -/
noncomputable def sampleStd (xs : List ℚ) : Option ℝ :=
  if xs.length ≤ 1 then none
  else
    some (Real.sqrt
      ((xs.map (fun x => ((x : ℝ) - ((xs.sum : ℚ) : ℝ) / (xs.length : ℝ)) ^ 2)).sum /
        ((xs.length : ℝ) - 1)))

/-- One row of the summary table: the group key and the four aggregated,
rounded statistics; each is `none` exactly where pandas shows `NaN`. -/
structure SummaryRow where
  entity : String
  mean : Option ℚ
  min : Option ℚ
  max : Option ℚ
  std : Option ℝ

/-- The aggregates of one group. -/
noncomputable def mkRow (e : String) (xs : List ℚ) : SummaryRow :=
  { entity := e
    mean := if xs.isEmpty then none else some (roundQ (xs.sum / (xs.length : ℚ)))
    min := xs.min?.map roundQ
    max := xs.max?.map roundQ
    std := (sampleStd xs).map roundHalfEvenR }

/-- `summary_stats` (line 167): one row per distinct group key, keys sorted
ascending, aggregates over the group's non-missing values. -/
noncomputable def summarize (v : List Obs) : List SummaryRow :=
  (entitiesSorted v).map (fun e => mkRow e (groupVals v e))

/-- A one-row view with a single non-missing value. -/
def vOhio : List Obs := [⟨"Ohio", 2020, some 150⟩]

/-- A one-row view whose only value is missing. -/
def vMiss : List Obs := [⟨"Ohio", 2020, none⟩]

/-! ## Aggregator: latest prices (lines 187–189)

`crop_data[crop_data['Year'] == crop_data['Year'].max()][['Commodity','Value']]
    .sort_values('Value', ascending=False)`.
pandas sorts through `nargsort`: missing values are set aside and appended
last in view order; the rest is argsorted (numpy introsort runs plain
insertion sort below 16 elements, hence stable at this scale — the slice
holds at most one row per commodity) after reversal and reversed back, which
altogether is a stable descending sort.  The later display formatting
(line 189) maps each value to a `"$%.2f"` string elementwise and does not
move rows. -/

/-- `p` may be placed before `q`: value descending, missing last. -/
def valBefore : Option ℚ → Option ℚ → Bool
  | some a, some b => decide (b ≤ a)
  | some _, none => true
  | none, some _ => false
  | none, none => true

/-- The sort relation of `sort_values('Value', ascending=False)` on
`(Commodity, Value)` pairs. -/
def pairBefore (p q : String × Option ℚ) : Prop :=
  valBefore p.2 q.2 = true

instance : DecidableRel pairBefore :=
  fun p q => instDecidableEqBool (valBefore p.2 q.2) true

instance : IsTotal (String × Option ℚ) pairBefore := by
  constructor
  intro a b
  rcases ha : a.2 with _ | av <;> rcases hb : b.2 with _ | bv <;>
    simp [pairBefore, valBefore, ha, hb]
  exact le_total bv av

instance : IsTrans (String × Option ℚ) pairBefore := by
  constructor
  intro a b c hab hbc
  rcases ha : a.2 with _ | av <;> rcases hb : b.2 with _ | bv <;>
    rcases hc : c.2 with _ | cv <;>
    simp [pairBefore, valBefore, ha, hb, hc] at hab hbc ⊢
  exact le_trans hbc hab

/-- `latest_prices` (lines 187–188): the `(Commodity, Value)` pairs at the
view's maximum year, sorted by value descending (missing last, ties stable). -/
def latestPrices (cropData : List Obs) : List (String × Option ℚ) :=
  match (cropData.map (fun r => r.period)).max? with
  | none => []
  | some m =>
    List.insertionSort pairBefore
      ((cropData.filter (fun r => decide (r.period = m))).map (fun r => (r.entity, r.value)))

/-- A max-year slice with two rows tied on value, entity names in
descending order. -/
def vTie : List Obs := [⟨"WHEAT", 2024, some 5⟩, ⟨"CORN", 2024, some 5⟩]

/-! ## Theorems -/

/-- The key of a summary row is the group key it was built from. -/
theorem mkRow_entity (e : String) (xs : List ℚ) : (mkRow e xs).entity = e :=
  rfl

/-- The summary table's keys are exactly the sorted distinct keys of the view. -/
theorem summarize_entities (v : List Obs) :
    (summarize v).map (fun row => row.entity) = entitiesSorted v := by
  unfold summarize
  rw [List.map_map]
  have h : ((fun row : SummaryRow => row.entity) ∘ fun e => mkRow e (groupVals v e)) =
      fun e => e := by
    funext e
    rfl
  rw [h, List.map_id']

/-- C6: the period predicate `yr.1 ≤ p && p ≤ yr.2` is unsatisfiable when the
range is inverted, so the filter keeps nothing, whatever the dataset. -/
theorem filterCropland_empty_of_inverted_range
    (df : List Obs) (states : List String) (yr : ℤ × ℤ) (h : yr.2 < yr.1) :
    filterCropland df states yr = [] := by
  unfold filterCropland
  rw [List.filter_eq_nil_iff]
  intro a _
  simp only [Bool.and_eq_true, decide_eq_true_eq]
  rintro ⟨⟨-, h1⟩, h2⟩
  omega

/-- Witness for C6 at a concrete dataset and the inverted range (2031, 2030). -/
theorem filterCropland_empty_of_inverted_range_witness :
    (2030 : ℤ) < 2031 ∧
      filterCropland [⟨"KENTUCKY", 2020, some 100⟩] ["KENTUCKY"] (2031, 2030) = [] :=
  ⟨by decide,
   filterCropland_empty_of_inverted_range _ _ _ (by decide)⟩

/-- C7: filtering twice with the same states and year range is a no-op on the
second pass (the predicate is pure, so `filter` is idempotent). -/
theorem filterCropland_idempotent (df : List Obs) (states : List String) (yr : ℤ × ℤ) :
    filterCropland (filterCropland df states yr) states yr = filterCropland df states yr := by
  unfold filterCropland
  rw [List.filter_filter]
  congr 1
  funext a
  rw [Bool.and_self]

/-- C10: the crop-prices view keeps exactly the rows whose commodity is
`WHEAT`, `CORN` or `SOYBEANS` — membership in the source plus membership in the
hard-coded commodity list — and it is an order-preserving sublist of the
source, so no period is filtered out.  The builder takes no commodity or
period parameter at all. -/
theorem cropPricesView_membership (df : List Obs) :
    (∀ r : Obs, r ∈ createCropPricesView df ↔
      r ∈ df ∧ r.entity ∈ (["WHEAT", "CORN", "SOYBEANS"] : List String)) ∧
    (createCropPricesView df).Sublist df := by
  constructor
  · intro r
    simp [createCropPricesView, List.mem_filter]
  · exact List.filter_sublist df

/-- C8: loading never drops a row — the output has one observation per input
row — and every normalized value is either `Missing` (`none`) or a finite
rational; `normalize` is a total function, the embedding of "never raises". -/
theorem loadCroplandData_total (rows : List (String × ℤ × String)) :
    (loadCroplandData rows).length = rows.length ∧
    ∀ o ∈ loadCroplandData rows, o.value = none ∨ ∃ q : ℚ, o.value = some q := by
  refine ⟨List.length_map _ _, ?_⟩
  intro o _
  cases h : o.value with
  | none => exact Or.inl rfl
  | some q => exact Or.inr ⟨q, rfl⟩

/-- Witness for C8: a comma-grouped numeral parses, the USDA withheld marker
`"(D)"` becomes `Missing`, both rows are retained. -/
theorem loadCroplandData_total_witness :
    (loadCroplandData rowsKYOH).length = rowsKYOH.length ∧
    ((⟨"KENTUCKY", 2020, some 1234⟩ : Obs).value = none ∨
      ∃ q : ℚ, (⟨"KENTUCKY", 2020, some 1234⟩ : Obs).value = some q) :=
  ⟨(loadCroplandData_total rowsKYOH).1,
   (loadCroplandData_total rowsKYOH).2 ⟨"KENTUCKY", 2020, some 1234⟩ (by decide)⟩

/-- C1: on a year-ascending view, `current_index = index_data['Value'].iloc[0]`
(line 205) yields the value of the oldest row, not the value at the maximum
period that its own comment (`# Most recent value`) and the metric label
(`"Current Index (2024)"`) promise and that the spec's Contract C requires. -/
theorem currentIndex_first_row_not_max_period :
    currentIndex (createPriceIndexView ixAsc) = some (some 50) ∧
    latestSingleSpec (createPriceIndexView ixAsc) = some (some 120) ∧
    currentIndex (createPriceIndexView ixAsc) ≠ latestSingleSpec (createPriceIndexView ixAsc) := by
  decide

/-- C4 counterexample: the unsupported chart type `"Pie Chart"` is not
rejected; the `else` arm (lines 68–70) silently builds a Bar chart. -/
theorem croplandChart_unsupported_kind_defaults_bar :
    ("Pie Chart" ∉ (["Line Chart", "Area Chart", "Bar Chart"] : List String)) ∧
    (createCroplandChart dfKY ["KENTUCKY"] (1997, 2025) "Pie Chart").map
        (fun p => p.1.kind) = some ChartKind.Bar := by
  decide

/-- C4 amended: any chart-type string other than `'Line Chart'` and
`'Area Chart'` — the unsupported ones included — silently yields a Bar
chart whenever the builder returns a chart at all. -/
theorem croplandChart_kind_else_bar (df : List Obs) (states : List String)
    (yr : ℤ × ℤ) (t : String) (spec : ChartSpec) (view : List Obs)
    (hL : t ≠ "Line Chart") (hA : t ≠ "Area Chart")
    (h : createCroplandChart df states yr t = some (spec, view)) :
    spec.kind = ChartKind.Bar := by
  simp only [createCroplandChart] at h
  split at h
  · exact absurd h (by simp)
  · injection h with h
    have hk := congrArg (fun p => p.1.kind) h
    dsimp only at hk
    unfold chartKindOf at hk
    rw [if_neg hL, if_neg hA] at hk
    exact hk.symm

/-- Witness for C4 at the concrete inputs of the counterexample. -/
theorem croplandChart_kind_else_bar_witness :
    ("Pie Chart" ≠ "Line Chart") ∧ ("Pie Chart" ≠ "Area Chart") ∧
    createCroplandChart dfKY ["KENTUCKY"] (1997, 2025) "Pie Chart" = some (specPie, viewKY) ∧
    specPie.kind = ChartKind.Bar :=
  ⟨by decide, by decide, by decide,
   croplandChart_kind_else_bar dfKY ["KENTUCKY"] (1997, 2025) "Pie Chart" specPie viewKY
     (by decide) (by decide) (by decide)⟩

/-- C9 counterexample: the index chart's single reference mark is labelled
`"2011 Base Year (100)"` (line 117), not `"Base Year (100)"` as claimed. -/
theorem indexChart_label_is_2011_base_year :
    ((createPriceIndexChart []).1.refMarks.map (fun m => m.label)) =
      ["2011 Base Year (100)"] ∧
    ((createPriceIndexChart []).1.refMarks.map (fun m => m.label)) ≠
      ["Base Year (100)"] := by
  decide

/-- C9 amended: for every index dataset the built chart carries exactly one
reference mark, a horizontal marker at value 100 labelled
`"2011 Base Year (100)"`. -/
theorem indexChart_single_reference_mark (df : List IndexObs) :
    (createPriceIndexChart df).1.refMarks = [⟨100, "2011 Base Year (100)"⟩] :=
  rfl

/-- C2: a group with exactly one non-missing value gets `std = NaN` from
pandas (`ddof=1`), i.e. `Missing` — not zero and not an error. -/
theorem summarize_std_single_missing (v : List Obs) (row : SummaryRow)
    (hrow : row ∈ summarize v) (h1 : (groupVals v row.entity).length = 1) :
    row.std = none := by
  unfold summarize at hrow
  rcases List.mem_map.mp hrow with ⟨e, -, rfl⟩
  rw [mkRow_entity] at h1
  simp [mkRow, sampleStd, h1]

/-- Witness for C2 on a one-row view: one non-missing value, `std` missing. -/
theorem summarize_std_single_missing_witness :
    (groupVals vOhio (mkRow "Ohio" (groupVals vOhio "Ohio")).entity).length = 1 ∧
    (mkRow "Ohio" (groupVals vOhio "Ohio")).std = none :=
  ⟨by decide,
   summarize_std_single_missing vOhio (mkRow "Ohio" (groupVals vOhio "Ohio"))
     (by
       have hsum : summarize vOhio = [mkRow "Ohio" (groupVals vOhio "Ohio")] := rfl
       rw [hsum]
       exact List.mem_singleton.mpr rfl)
     (by decide)⟩

/-- C3 counterexample: an entity all of whose values are missing is NOT
absent from the summary — pandas groups on the key column, so `"Ohio"`
still gets a (NaN-filled) row. -/
theorem summarize_all_missing_entity_present :
    (∀ r ∈ vMiss, r.value = none) ∧
    (summarize vMiss).map (fun row => row.entity) = ["Ohio"] :=
  ⟨by decide, rfl⟩

/-- C3 amended: the summary has one row per distinct entity of the view
(keys sorted ascending), every entity of the view — with or without
non-missing values — appears, and an entity with no non-missing value gets a
row whose four statistics are all `Missing` (`NaN`-filled). -/
theorem summarize_rows_characterization (v : List Obs) :
    (summarize v).map (fun row => row.entity) = entitiesSorted v ∧
    (∀ r ∈ v, r.entity ∈ (summarize v).map (fun row => row.entity)) ∧
    (∀ row ∈ summarize v, groupVals v row.entity = [] →
      row.mean = none ∧ row.min = none ∧ row.max = none ∧ row.std = none) := by
  refine ⟨summarize_entities v, ?_, ?_⟩
  · intro r hr
    rw [summarize_entities]
    unfold entitiesSorted
    rw [List.mem_insertionSort, List.mem_dedup]
    exact List.mem_map_of_mem _ hr
  · intro row hrow hempty
    unfold summarize at hrow
    rcases List.mem_map.mp hrow with ⟨e, -, rfl⟩
    rw [mkRow_entity] at hempty
    rw [hempty]
    exact ⟨rfl, rfl, rfl, rfl⟩

/-- Witness for C3 on the all-missing one-row view. -/
theorem summarize_rows_characterization_witness :
    groupVals vMiss (mkRow "Ohio" (groupVals vMiss "Ohio")).entity = [] ∧
    ((mkRow "Ohio" (groupVals vMiss "Ohio")).mean = none ∧
      (mkRow "Ohio" (groupVals vMiss "Ohio")).min = none ∧
      (mkRow "Ohio" (groupVals vMiss "Ohio")).max = none ∧
      (mkRow "Ohio" (groupVals vMiss "Ohio")).std = none) :=
  ⟨by decide,
   (summarize_rows_characterization vMiss).2.2 (mkRow "Ohio" (groupVals vMiss "Ohio"))
     (by
       have hsum : summarize vMiss = [mkRow "Ohio" (groupVals vMiss "Ohio")] := rfl
       rw [hsum]
       exact List.mem_singleton.mpr rfl)
     (by decide)⟩

/-- C5 counterexample: two rows tied on value, names in dataset order
`WHEAT, CORN` — the sort keeps dataset order for the tie, it does NOT break
the tie by entity name ascending (which would put `CORN` first). -/
theorem latestPrices_tie_not_name_ascending :
    latestPrices vTie = [("WHEAT", some 5), ("CORN", some 5)] ∧
    latestPrices vTie ≠ [("CORN", some 5), ("WHEAT", some 5)] := by
  decide

/-- C5 amended: `latest_prices` is sorted by value descending with missing
values last; it is a permutation of the max-year slice of the view; and it is
stable — a pair of rows of the slice already in sort-compatible order (ties
included) keeps its relative order.  It is a pure function of the view, so
repeated calls agree. -/
theorem latestPrices_sorted_perm_stable (v : List Obs) :
    List.Sorted pairBefore (latestPrices v) ∧
    (∀ m, (v.map (fun r => r.period)).max? = some m →
      (latestPrices v).Perm
        ((v.filter (fun r => decide (r.period = m))).map (fun r => (r.entity, r.value)))) ∧
    (∀ m, (v.map (fun r => r.period)).max? = some m →
      ∀ p q : String × Option ℚ, pairBefore p q →
        ([p, q]).Sublist
          ((v.filter (fun r => decide (r.period = m))).map (fun r => (r.entity, r.value))) →
        ([p, q]).Sublist (latestPrices v)) := by
  refine ⟨?_, ?_, ?_⟩
  · unfold latestPrices
    cases hm : (v.map (fun r => r.period)).max? with
    | none => exact List.sorted_nil
    | some m => exact List.sorted_insertionSort pairBefore _
  · intro m hm
    unfold latestPrices
    rw [hm]
    exact List.perm_insertionSort pairBefore _
  · intro m hm p q hpq hsub
    unfold latestPrices
    rw [hm]
    exact List.pair_sublist_insertionSort hpq hsub

/-- Witness for C5 on the tied slice: the tied pair in dataset order is a
sorted-compatible pair and survives in that order. -/
theorem latestPrices_sorted_perm_stable_witness :
    ((vTie.map (fun r => r.period)).max? = some 2024) ∧
    pairBefore ("WHEAT", some 5) ("CORN", some 5) ∧
    ([(("WHEAT" : String), some (5 : ℚ)), ("CORN", some 5)]).Sublist
      ((vTie.filter (fun r => decide (r.period = 2024))).map (fun r => (r.entity, r.value))) ∧
    ([(("WHEAT" : String), some (5 : ℚ)), ("CORN", some 5)]).Sublist (latestPrices vTie) :=
  ⟨by decide, by decide, by decide,
   (latestPrices_sorted_perm_stable vTie).2.2 2024 (by decide) ("WHEAT", some 5)
     ("CORN", some 5) (by decide) (by decide)⟩

end AgriApp
